import Mathlib

/-!
Verification of the billing computation and record-selection pipeline of the
tutoring-invoice scripts (`invoice.py`, `sketch.py`, `summary.py`).

Shallow embedding conventions:
* Spreadsheet dates are serial day counts (day 0 = 1899-12-30).  `parse_date`
  maps a serial number monotonically to a calendar datetime, so date
  comparisons in the scripts are order-isomorphic to comparisons of the serial
  numbers themselves; we model a session date as its serial number in `ℚ`.
* Numeric cell values (`hours`, `fee`, `running_tab`, `hourly_rate`) are
  modelled in `ℚ` with exact arithmetic for the structural claims.  The
  floating-point behaviour of Python's `float`/`sum` is modelled separately
  (see `roundDouble`, `pySum` below) for the numerical-exactness claim.
* Fallible Python expressions (`next(...)` raising `StopIteration`,
  `s[-1]` on an empty string raising `IndexError`, `int(...)` raising
  `ValueError`) are modelled with `Option`, `none` meaning the script raises.
-/

namespace TutoringInvoice

/-- A parsed session row, from `parse_session`:
`[ row[0], parse_date(row[1]), float(row[2]), float(row[3]) ]`. -/
structure Session where
  clientName : String
  date : ℚ
  hours : ℚ
  fee : ℚ
deriving DecidableEq, Repr

/-- The two cutoff dates `cutoff_dates[0]`, `cutoff_dates[1]` (serial dates). -/
structure Window where
  startDate : ℚ
  endDate : ℚ
deriving DecidableEq, Repr

/-- A parsed client row, from `parse_client`:
`[ row[0], int(row[1]), row[2], float(row[3]), row[4], float(row[5]), float(row[6]), row[7], row[8] ]`. -/
structure Client where
  name : String
  seqNum : ℤ
  field2 : String
  field3 : ℚ
  subjects : String
  hourlyRate : ℚ
  runningTab : ℚ
  payerName : String
  payerEmail : String
deriving DecidableEq, Repr

/-- `client_sessions = [parse_session(row) for row in all_sessions if row[0] == name]`
(on already-parsed sessions). -/
def sessions_for (name : String) (all_sessions : List Session) : List Session :=
  all_sessions.filter (fun s => s.clientName == name)

/-- `current_sessions = [s for s in client_sessions if cutoff_dates[0] <= s[1] < cutoff_dates[1]]`
(`invoice.py` line 63, `sketch.py` line 63). -/
def current_sessions (w : Window) (client_sessions : List Session) : List Session :=
  client_sessions.filter (fun s => decide (w.startDate ≤ s.date) && decide (s.date < w.endDate))

/-- `past_sessions = [s for s in client_sessions if s[1] < cutoff_dates[0]]`
(`sketch.py` line 64). -/
def past_sessions (w : Window) (client_sessions : List Session) : List Session :=
  client_sessions.filter (fun s => decide (s.date < w.startDate))

/-- The computed fields of the rendered invoice (the `\newcommand` values of
the template that depend on the billing computation).  `rowData` abstracts the
`session_rows` string: the rendered row for a session is a fixed function of
`(date, hours, fee)`, so two templates emit the same `session_rows` iff their
`rowData` agree. -/
structure InvoiceFields where
  invoiceNumber : String
  clientName : String
  subjectsList : String
  hourlyRate : ℚ
  sessionCount : ℕ
  totalHours : ℚ
  sessionTotal : ℚ
  currentTab : ℚ
  totalDue : ℚ
  rowData : List (ℚ × ℚ × ℚ)
deriving DecidableEq, Repr

/-- The computation of `get_invoice_template` in `invoice.py` (lines 158-187):
`session_rows` accumulated over `current_sessions`,
`session_total = sum(s[3] for s in current_sessions)`,
`current_tab = client_data[6]`, `total_due = session_total + current_tab`,
`totalHours = sum(s[2] for s in current_sessions)`,
`sessionCount = len(current_sessions)`. -/
def get_invoice_template (client_data : Client) (invoice_number : String)
    (cur : List Session) : InvoiceFields :=
  let session_rows := cur.map (fun s => (s.date, s.hours, s.fee))
  let session_total := cur.foldl (fun acc s => acc + s.fee) 0
  let current_tab := client_data.runningTab
  let total_due := session_total + current_tab
  { invoiceNumber := invoice_number
    clientName := client_data.name
    subjectsList := client_data.subjects
    hourlyRate := client_data.hourlyRate
    sessionCount := cur.length
    totalHours := cur.foldl (fun acc s => acc + s.hours) 0
    sessionTotal := session_total
    currentTab := current_tab
    totalDue := total_due
    rowData := session_rows }

set_option linter.unusedVariables false in
/-- The computation of `get_latex_template` in `sketch.py` (lines 123-155):
it receives `past_sessions` as well, but sets
`included_sessions = current_sessions` and computes every field over
`included_sessions` only. -/
def get_latex_template (client_data : Client) (invoice_number : String)
    (past : List Session) (cur : List Session) : InvoiceFields :=
  let included_sessions := cur
  let session_rows := included_sessions.map (fun s => (s.date, s.hours, s.fee))
  let session_total := included_sessions.foldl (fun acc s => acc + s.fee) 0
  let current_tab := client_data.runningTab
  let total_due := session_total + current_tab
  { invoiceNumber := invoice_number
    clientName := client_data.name
    subjectsList := client_data.subjects
    hourlyRate := client_data.hourlyRate
    sessionCount := included_sessions.length
    totalHours := included_sessions.foldl (fun acc s => acc + s.hours) 0
    sessionTotal := session_total
    currentTab := current_tab
    totalDue := total_due
    rowData := session_rows }

/-- The two email-body variants of `fill_content` inside `send_invoice_email`
(`invoice.py` lines 116-142): the welcome variant for a payer whose name
carries the trailing marker, the standard variant otherwise. -/
inductive EmailVariant where
  | welcome
  | standard
deriving DecidableEq, Repr

/-- The branch of `fill_content` on `payer[-1] == '!'` (`invoice.py`
line 126), selecting the email-body variant.  Python `payer[-1]` raises
`IndexError` when `payer` is the empty string, hence `Option`. -/
def fill_content (payer : String) : Option EmailVariant :=
  if payer.isEmpty then none
  else if payer.back == '!' then some EmailVariant.welcome
  else some EmailVariant.standard

/-- `extract_initials(name) = ''.join(word[0] for word in name.split()).upper()`
(`invoice.py` lines 30-31).  Python `str.split()` splits on whitespace runs
and drops empty tokens; `word[0]` is the one-character prefix of a token;
`.upper()` uppercases the joined string. -/
def extract_initials (name : String) : String :=
  String.map Char.toUpper
    (String.join (((name.split Char.isWhitespace).filter
      (fun w => !w.isEmpty)).map (fun w => w.take 1)))

/-- Python `str.zfill(width)` on a digit string: left-pad with `'0'` up to
`width` characters (no-op when the string is already at least that long). -/
def zfill (width : Nat) (s : String) : String :=
  String.mk (List.replicate (width - s.length) '0') ++ s

/-- The invoice-number read:
`invoice_number = sheet.acell(INVOICE_NUMBER_RANGE).value.zfill(4)`
(`invoice.py` line 58). -/
def readInvoiceNumber (cell : String) : String := zfill 4 cell

/-- Helper for `intOfString`: accumulate decimal digits left to right. -/
def digitsToNat? : List Char → Nat → Option Nat
  | [], acc => some acc
  | c :: rest, acc =>
    if c.isDigit then digitsToNat? rest (acc * 10 + (c.toNat - 48)) else none

/-- Python `int(text)` on the counter cell's digit string: its numeric value,
or `none` (a `ValueError`) when the string is empty or holds a non-digit. -/
def intOfString (s : String) : Option Nat :=
  if s.data.isEmpty then none else digitsToNat? s.data 0

/-- The post-send counter write: the cell is set to
`str(int(invoice_number) + 1)` (`invoice.py` line 108), where
`invoice_number` is the zero-filled read value.  `int(...)` raises
`ValueError` on a non-numeric string, hence `Option`. -/
def counterAfterSend (cell : String) : Option String :=
  (intOfString (readInvoiceNumber cell)).map (fun n => Nat.repr (n + 1))

/-- `client_data = next(row for row in all_clients if row[0] == name)`
(`invoice.py` line 64).  `next` on an exhausted generator raises a bare
`StopIteration`, hence `Option`. -/
def findClient (all_clients : List Client) (name : String) : Option Client :=
  all_clients.find? (fun c => c.name == name)

/-- The payer-marker clearing loop (`invoice.py` lines 101-105): scan
`all_clients` in order and, at the first row whose payer-name cell equals the
processed client's payer name, write `client_data[7][:-1]` back into that
row's payer-name cell, then `break`. -/
def clearLoop (payer : String) : List Client → List Client
  | [] => []
  | c :: rest =>
    if c.payerName == payer then
      { c with payerName := payer.dropRight 1 } :: rest
    else c :: clearLoop payer rest

/-- The guarded clearing step (`invoice.py` lines 98-105): the loop runs only
when `client_data[7][-1] == '!'`; that indexing raises `IndexError` on an
empty payer name, hence `Option`.  (The later invoice-counter update is a
separate write, modelled by `counterAfterSend`.) -/
def clearPayerStep (all_clients : List Client) (client_data : Client) :
    Option (List Client) :=
  if client_data.payerName.isEmpty then none
  else if client_data.payerName.back == '!' then
    some (clearLoop client_data.payerName all_clients)
  else some all_clients

/-- The observable outcome of one successful run of
`create_and_send_invoice`: the rendered fields, the attachment filename, the
email-body variant, and the two sheet mutations (client rows after the
payer-marker clearing, and the written-back counter cell). -/
structure RunResult where
  fields : InvoiceFields
  filename : String
  emailVariant : EmailVariant
  updatedClients : List Client
  updatedCounterCell : String
deriving DecidableEq, Repr

/-- The pure core of `create_and_send_invoice` (`invoice.py` lines 50-109):
read the counter cell (zero-filled to 4 on read), filter the named client's
sessions to the cutoff window, look the client up (`next` raises on a
missing client), render the template fields, pick the email-body variant,
run the guarded payer-marker clearing, and compute the written-back counter
value.  `none` models an uncaught exception aborting this client's
pipeline. -/
def create_and_send_invoice (all_sessions : List Session)
    (all_clients : List Client) (cutoff : Window) (counterCell : String)
    (name : String) : Option RunResult :=
  let invoice_number := readInvoiceNumber counterCell
  let client_sessions := sessions_for name all_sessions
  let cur := current_sessions cutoff client_sessions
  match findClient all_clients name with
  | none => none
  | some client_data =>
    let initials := extract_initials name
    let filename := "INV-" ++ invoice_number ++ "_" ++ initials ++ ".tex"
    let fields := get_invoice_template client_data invoice_number cur
    match fill_content client_data.payerName with
    | none => none
    | some variant =>
      match clearPayerStep all_clients client_data with
      | none => none
      | some updated =>
        match counterAfterSend counterCell with
        | none => none
        | some newCell =>
          some ⟨fields, filename, variant, updated, newCell⟩

/-- The batch loop of `__main__` (`invoice.py` lines 281-282):
`for name in names: create_and_send_invoice(name)` with no exception
handling, so an uncaught exception halts the whole run.  Each iteration
re-reads the sheet, so the client rows and counter cell written by one
iteration are seen by the next.  The result is the list of names whose
pipelines completed before the run stopped. -/
def runBatch (all_sessions : List Session) (all_clients : List Client)
    (cutoff : Window) (counterCell : String) : List String → List String
  | [] => []
  | n :: rest =>
    match create_and_send_invoice all_sessions all_clients cutoff counterCell n with
    | none => []
    | some r =>
      n :: runBatch all_sessions r.updatedClients cutoff r.updatedCounterCell rest

/-- Round-to-nearest, ties-to-even, onto the IEEE-754 binary64 grid: a value
with binary exponent `e = Int.log 2 |q|` is rounded to the nearest integer
multiple of the unit in the last place `2 ^ (e - 52)` (ties to the even
multiple).  This models CPython's `float` values and arithmetic in the
normal range (subnormal and overflow magnitudes never arise at the inputs
used here). -/
def roundDouble (q : ℚ) : ℚ :=
  if q = 0 then 0
  else
    let a := |q|
    let e := Int.log 2 a
    let ulp : ℚ := 2 ^ (e - 52)
    let scaled := a / ulp
    let f := ⌊scaled⌋
    let r := scaled - (f : ℚ)
    let k :=
      if r < 1 / 2 then f
      else if 1 / 2 < r then f + 1
      else if f % 2 = 0 then f else f + 1
    (if q < 0 then -1 else 1) * ((k : ℚ) * ulp)

/-- `float(cell)` in `parse_session` (`invoice.py` lines 43-44): the nearest
binary64 to the exact rational value of the decimal numeral. -/
def pyFloat (q : ℚ) : ℚ := roundDouble q

/-- Python's built-in `sum` over float values, as used in
`get_invoice_template` (`invoice.py` lines 165, 183, 184): a left fold of
float additions starting from `0`, each addition rounding its exact result
back to the binary64 grid. -/
def pySum (l : List ℚ) : ℚ := l.foldl (fun acc x => roundDouble (acc + x)) 0

/-- A concrete client record (no payer marker) for concrete evaluations. -/
def bobClient : Client :=
  ⟨"Bob", 1, "", 0, "Math", 60, 0, "Bob Payer", "bob@x"⟩

/-- A concrete client record whose payer-name cell is empty. -/
def emptyPayerClient : Client := ⟨"Eve", 2, "", 0, "", 0, 0, "", "e@x"⟩

/-- First of two concrete clients sharing the marked payer "John Doe!". -/
def kidA : Client := ⟨"Kid A", 3, "", 0, "Math", 50, 0, "John Doe!", "jd@x"⟩

/-- Second of two concrete clients sharing the marked payer "John Doe!". -/
def kidB : Client := ⟨"Kid B", 4, "", 0, "Physics", 55, 0, "John Doe!", "jd@x"⟩

/-- A concrete client whose payer name is the already-cleared "John Doe". -/
def janeClient : Client := ⟨"Jane", 5, "", 0, "", 0, 0, "John Doe", "jd@x"⟩

end TutoringInvoice

namespace TutoringInvoice

/-- Helper: the clearing loop rewrites exactly the first matching row,
touching only its payer-name field, and leaves every other row unchanged. -/
theorem clearLoop_eq_of_first_match (payer : String) (pre : List Client)
    (c : Client) (post : List Client)
    (hpre : ∀ c' ∈ pre, c'.payerName ≠ payer) (hc : c.payerName = payer) :
    clearLoop payer (pre ++ c :: post) =
      pre ++ { c with payerName := payer.dropRight 1 } :: post := by
  induction pre with
  | nil => simp [clearLoop, hc]
  | cons a as ih =>
    have ha : a.payerName ≠ payer := hpre a (by simp)
    simp only [List.cons_append, clearLoop, beq_iff_eq, ha, if_false,
      List.append_eq]
    rw [ih (fun c' h => hpre c' (by simp [h]))]

/-- Helper: flattening one-character prefixes of nonempty character lists and
uppercasing equals mapping the uppercased head over the strings. -/
theorem flatten_take_one_map_toUpper (ts : List String)
    (h : ∀ w ∈ ts, w.data ≠ []) :
    ((ts.map (fun w => w.data.take 1)).flatten).map Char.toUpper =
      ts.map (fun w => Char.toUpper w.front) := by
  induction ts with
  | nil => rfl
  | cons a as ih =>
    have ha : a.data ≠ [] := h a (by simp)
    obtain ⟨c, cs, hc⟩ : ∃ c cs, a.data = c :: cs := by
      cases hcase : a.data with
      | nil => exact absurd hcase ha
      | cons c cs => exact ⟨c, cs, rfl⟩
    have hfront : a.front = c := by
      rw [String.front_eq, hc]
      rfl
    simp only [List.map_cons, List.flatten_cons, hc, List.take_succ_cons,
      List.take_zero, List.singleton_append, hfront]
    rw [ih (fun w hw => h w (by simp [hw]))]

/-- Helper: certified evaluation of `roundDouble` at a positive rational,
given its binary exponent `e`, the floor `f` of the scaled value and the
rounded mantissa `k`. -/
theorem roundDouble_eq_of (q : ℚ) (e f k : ℤ) (hq : 0 < q)
    (hle : (2 : ℚ) ^ e ≤ q) (hlt : q < (2 : ℚ) ^ (e + 1))
    (hf1 : (f : ℚ) ≤ q / 2 ^ (e - 52)) (hf2 : q / 2 ^ (e - 52) < (f : ℚ) + 1)
    (hk : k = if q / 2 ^ (e - 52) - (f : ℚ) < 1 / 2 then f
          else if 1 / 2 < q / 2 ^ (e - 52) - (f : ℚ) then f + 1
          else if f % 2 = 0 then f else f + 1) :
    roundDouble q = (k : ℚ) * 2 ^ (e - 52) := by
  have habs : |q| = q := abs_of_pos hq
  have he : Int.log 2 q = e := by
    have h1 : e ≤ Int.log 2 q := by
      rw [← Int.zpow_le_iff_le_log (by norm_num) hq]
      exact_mod_cast hle
    have h2 : Int.log 2 q < e + 1 := by
      rw [← Int.lt_zpow_iff_log_lt (by norm_num) hq]
      exact_mod_cast hlt
    omega
  have hfl : ⌊q / (2 : ℚ) ^ (e - 52)⌋ = f :=
    Int.floor_eq_iff.mpr ⟨hf1, hf2⟩
  have hq0 : ¬ q = 0 := ne_of_gt hq
  have hqneg : ¬ q < 0 := not_lt.mpr hq.le
  simp only [roundDouble, hq0, if_false, habs, he, hfl, hqneg, if_true, hk,
    one_mul]

/-- Helper: the binary64 value of the decimal numeral `0.10`. -/
theorem roundDouble_one_tenth :
    roundDouble (1 / 10) = 7205759403792794 * (2 : ℚ) ^ ((-4 : ℤ) - 52) :=
  roundDouble_eq_of (1 / 10) (-4) 7205759403792793 7205759403792794
    (by norm_num) (by norm_num) (by norm_num) (by norm_num) (by norm_num)
    (by rw [if_neg (by norm_num), if_pos (by norm_num)]; norm_num)

/-- Helper: the binary64 value of the decimal numeral `0.20`. -/
theorem roundDouble_one_fifth :
    roundDouble (2 / 10) = 7205759403792794 * (2 : ℚ) ^ ((-3 : ℤ) - 52) :=
  roundDouble_eq_of (2 / 10) (-3) 7205759403792793 7205759403792794
    (by norm_num) (by norm_num) (by norm_num) (by norm_num) (by norm_num)
    (by rw [if_neg (by norm_num), if_pos (by norm_num)]; norm_num)

/-- Helper: rounding is the identity on the representable binary64 value of
`0.10` (so `0 + float("0.10")` stays that value). -/
theorem roundDouble_fix_tenth :
    roundDouble (7205759403792794 * (2 : ℚ) ^ ((-4 : ℤ) - 52)) =
      7205759403792794 * (2 : ℚ) ^ ((-4 : ℤ) - 52) :=
  roundDouble_eq_of (7205759403792794 * (2 : ℚ) ^ ((-4 : ℤ) - 52))
    (-4) 7205759403792794 7205759403792794
    (by norm_num) (by norm_num) (by norm_num) (by norm_num) (by norm_num)
    (by rw [if_pos (by norm_num)])

/-- Helper: the binary64 addition of the doubles for `0.10` and `0.20`
(the exact sum falls on a tie and rounds to the even mantissa). -/
theorem roundDouble_sum_eval :
    roundDouble (7205759403792794 * (2 : ℚ) ^ ((-4 : ℤ) - 52) +
        7205759403792794 * (2 : ℚ) ^ ((-3 : ℤ) - 52)) =
      5404319552844596 * (2 : ℚ) ^ ((-2 : ℤ) - 52) :=
  roundDouble_eq_of
    (7205759403792794 * (2 : ℚ) ^ ((-4 : ℤ) - 52) +
      7205759403792794 * (2 : ℚ) ^ ((-3 : ℤ) - 52))
    (-2) 5404319552844595 5404319552844596
    (by norm_num) (by norm_num) (by norm_num) (by norm_num) (by norm_num)
    (by rw [if_neg (by norm_num), if_neg (by norm_num), if_neg (by decide)]
        norm_num)

/-- C1: for every cutoff window `[s, e)` and session, `current_sessions`
(the windowed selection) keeps the session iff `s ≤ date < e`; a session dated
exactly at the window end is excluded, one dated exactly at the window start
(of a nonempty window) is included. -/
theorem current_sessions_half_open (w : Window) (l : List Session) (s : Session) :
    (s ∈ current_sessions w l ↔ s ∈ l ∧ w.startDate ≤ s.date ∧ s.date < w.endDate) ∧
    (s.date = w.endDate → s ∉ current_sessions w l) ∧
    (s ∈ l → s.date = w.startDate → w.startDate < w.endDate → s ∈ current_sessions w l) := by
  have hmem : s ∈ current_sessions w l ↔
      s ∈ l ∧ w.startDate ≤ s.date ∧ s.date < w.endDate := by
    simp [current_sessions, List.mem_filter]
  refine ⟨hmem, ?_, ?_⟩
  · intro he hs
    rcases hmem.mp hs with ⟨-, -, hlt⟩
    exact absurd hlt (by simp [he])
  · intro hl hstart hlt
    exact hmem.mpr ⟨hl, le_of_eq hstart.symm, hstart ▸ hlt⟩

/-- Witness for C1, on the spec's §8 scenario: window `[45000, 45014)`,
sessions dated 45001, 45013, 44990, plus one dated exactly 45014 (the end). -/
theorem current_sessions_half_open_witness :
    (⟨"A", 45001, 1, 50⟩ : Session) ∈
      current_sessions ⟨45000, 45014⟩
        [⟨"A", 45001, 1, 50⟩, ⟨"A", 45013, 3/2, 75⟩, ⟨"A", 44990, 1, 50⟩] ∧
    (⟨"A", 45014, 1, 50⟩ : Session) ∉
      current_sessions ⟨45000, 45014⟩ [⟨"A", 45014, 1, 50⟩] ∧
    (⟨"A", 45000, 1, 50⟩ : Session) ∈
      current_sessions ⟨45000, 45014⟩ [⟨"A", 45000, 1, 50⟩] := by
  refine ⟨?_, ?_, ?_⟩
  · exact (current_sessions_half_open ⟨45000, 45014⟩ _ _).1.mpr
      ⟨by decide, by norm_num, by norm_num⟩
  · exact (current_sessions_half_open ⟨45000, 45014⟩ _ _).2.1 rfl
  · exact (current_sessions_half_open ⟨45000, 45014⟩ _ _).2.2
      (by decide) rfl (by norm_num)

/-- C2: for every client, invoice number and selected session list (and hence
for every `running_tab` value, `ℚ` includes the negatives), the rendered
`total_due` equals `session_total + running_tab`, where `session_total` is the
sum of the selected sessions' fees. -/
theorem total_due_eq_session_total_add_tab (client_data : Client)
    (invoice_number : String) (cur : List Session) :
    (get_invoice_template client_data invoice_number cur).totalDue =
      (get_invoice_template client_data invoice_number cur).sessionTotal +
        client_data.runningTab ∧
    (get_invoice_template client_data invoice_number cur).sessionTotal =
      (cur.map Session.fee).sum := by
  constructor
  · rfl
  · show cur.foldl (fun acc s => acc + s.fee) 0 = (cur.map Session.fee).sum
    rw [List.sum_eq_foldl, List.foldl_map]

/-- C3: the scripts sum `hours` and `fee` with binary floating point
(`float(...)` and `sum(...)`), not exact decimal arithmetic.  At the
two-decimal fees `0.10` and `0.20` the computed `session_total` is
`5404319552844596 / 2 ^ 54 = 0.30000000000000004...`, not the exact decimal
sum `0.30`: the claim of exact decimal sums with no precision loss fails on
the code at this input. -/
theorem pySum_fee_drift :
    pySum [pyFloat (1 / 10), pyFloat (2 / 10)] ≠ 3 / 10 ∧
    pySum [pyFloat (1 / 10), pyFloat (2 / 10)] = 5404319552844596 / 2 ^ 54 ∧
    (1 : ℚ) / 10 + 2 / 10 = 3 / 10 := by
  have heval : pySum [pyFloat (1 / 10), pyFloat (2 / 10)] =
      5404319552844596 * (2 : ℚ) ^ ((-2 : ℤ) - 52) := by
    show roundDouble (roundDouble (0 + roundDouble (1 / 10)) +
      roundDouble (2 / 10)) = _
    rw [zero_add, roundDouble_one_tenth, roundDouble_fix_tenth,
      roundDouble_one_fifth, roundDouble_sum_eval]
  refine ⟨?_, ?_, by norm_num⟩
  · rw [heval]
    norm_num
  · rw [heval]
    norm_num

/-- C4: the claim that the counter is written back zero-padded (`"0007"`
becomes `"0008"`) is false on the code: `invoice.py` line 108 writes
`str(int(invoice_number) + 1)` with no padding, so the cell holds `"8"`. -/
theorem counterAfterSend_writes_unpadded :
    counterAfterSend "0007" = some "8" ∧
    counterAfterSend "0007" ≠ some "0008" := by
  refine ⟨by decide, by decide⟩

/-- C4 (amended): after one successful send the counter cell holds the
decimal representation of the previous numeric value plus one, without
padding; the 4-digit zero padding is reapplied when the counter is next read
(`.zfill(4)` on read), so `"0007"` becomes `"8"` in the cell and reads back
as `"0008"`. -/
theorem counter_increment_amended (cell : String) (n : Nat)
    (h : intOfString (readInvoiceNumber cell) = some n) :
    counterAfterSend cell = some (Nat.repr (n + 1)) ∧
    counterAfterSend "0007" = some "8" ∧
    readInvoiceNumber "8" = "0008" := by
  refine ⟨?_, by decide, by decide⟩
  simp [counterAfterSend, h]

/-- Witness for C4 (amended), at the stored value `"0007"`. -/
theorem counter_increment_amended_witness :
    counterAfterSend "0007" = some (Nat.repr 8) ∧
    counterAfterSend "0007" = some "8" ∧
    readInvoiceNumber "8" = "0008" :=
  counter_increment_amended "0007" 7 (by decide)

/-- C5: a missing client record does not raise a `ClientNotFoundError`
naming the client, and the batch does not continue: `next(...)` raises a
bare `StopIteration` and the `__main__` loop has no exception handling, so
the whole run halts.  Concretely, with only a record for "Bob" on the sheet,
the batch `["Alice", "Bob"]` halts at "Alice" and "Bob" — although present
and findable — is never processed. -/
theorem batch_halts_on_missing_client :
    findClient [bobClient] "Alice" = none ∧
    findClient [bobClient] "Bob" = some bobClient ∧
    runBatch [] [bobClient] ⟨0, 1⟩ "0001" ["Alice", "Bob"] = [] := by
  refine ⟨rfl, rfl, rfl⟩

/-- C6: a client with zero sessions in the cutoff window still gets a
rendered and sent invoice (the pipeline has no skip branch and completes),
whose computed fields are `session_count = 0`, `total_hours = 0`,
`session_total = 0` and `total_due = running_tab` exactly. -/
theorem zero_session_invoice (all_sessions : List Session)
    (all_clients : List Client) (w : Window) (cell : String) (name : String)
    (cd : Client) (n : Nat)
    (hfind : findClient all_clients name = some cd)
    (hpayer : cd.payerName.isEmpty = false)
    (hnum : intOfString (readInvoiceNumber cell) = some n)
    (hempty : current_sessions w (sessions_for name all_sessions) = []) :
    ∃ r : RunResult,
      create_and_send_invoice all_sessions all_clients w cell name = some r ∧
      r.fields.sessionCount = 0 ∧ r.fields.totalHours = 0 ∧
      r.fields.sessionTotal = 0 ∧ r.fields.totalDue = cd.runningTab := by
  have hfc : ∃ v, fill_content cd.payerName = some v := by
    cases hb : cd.payerName.back == '!' <;> simp [fill_content, hpayer, hb]
  have hcl : ∃ cs, clearPayerStep all_clients cd = some cs := by
    cases hb : cd.payerName.back == '!' <;> simp [clearPayerStep, hpayer, hb]
  rcases hfc with ⟨v, hv⟩
  rcases hcl with ⟨cs, hcs⟩
  refine ⟨⟨get_invoice_template cd (readInvoiceNumber cell) [],
    "INV-" ++ readInvoiceNumber cell ++ "_" ++ extract_initials name ++ ".tex",
    v, cs, Nat.repr (n + 1)⟩, ?_, ?_, ?_, ?_, ?_⟩
  · simp [create_and_send_invoice, hfind, hempty, hv, hcs,
      counterAfterSend, hnum]
  · rfl
  · rfl
  · rfl
  · show (0 : ℚ) + cd.runningTab = cd.runningTab
    exact zero_add _

/-- Witness for C6: the client "Bob" with an empty session sheet. -/
theorem zero_session_invoice_witness :
    ∃ r : RunResult,
      create_and_send_invoice [] [bobClient] ⟨0, 1⟩ "0001" "Bob" = some r ∧
      r.fields.sessionCount = 0 ∧ r.fields.totalHours = 0 ∧
      r.fields.sessionTotal = 0 ∧ r.fields.totalDue = bobClient.runningTab :=
  zero_session_invoice [] [bobClient] ⟨0, 1⟩ "0001" "Bob" bobClient 1
    rfl rfl (by decide) rfl

/-- C7: the claim that the clearing step never raises for a payer name
without the trailing marker is false at the empty payer name: `""` does not
end with `'!'`, yet `client_data[7][-1]` (`invoice.py` line 99) raises
`IndexError` on it and the step aborts instead of being a no-op. -/
theorem clear_on_empty_payer_errors :
    ("" : String).endsWith "!" = false ∧
    clearPayerStep [emptyPayerClient] emptyPayerClient = none := by
  refine ⟨rfl, rfl⟩

/-- C7 (amended): for every nonempty payer name whose last character is not
the marker `'!'` (including a name from which the marker was already
cleared), the clearing step is a no-op that raises no error and leaves the
sheet — in particular the stored payer name — unchanged, and running the
step twice equals running it once. -/
theorem clear_noop_idempotent (all_clients : List Client) (cd : Client)
    (h1 : cd.payerName.isEmpty = false) (h2 : cd.payerName.back ≠ '!') :
    clearPayerStep all_clients cd = some all_clients ∧
    (clearPayerStep all_clients cd).bind (fun cs => clearPayerStep cs cd) =
      clearPayerStep all_clients cd := by
  have hstep : clearPayerStep all_clients cd = some all_clients := by
    simp [clearPayerStep, h1, h2]
  refine ⟨hstep, ?_⟩
  rw [hstep, Option.some_bind, hstep]

/-- Witness for C7 (amended): the already-cleared payer name "John Doe". -/
theorem clear_noop_idempotent_witness :
    clearPayerStep [janeClient] janeClient = some [janeClient] ∧
    (clearPayerStep [janeClient] janeClient).bind
        (fun cs => clearPayerStep cs janeClient) =
      clearPayerStep [janeClient] janeClient :=
  clear_noop_idempotent [janeClient] janeClient (by decide) (by decide)

/-- C8: the claim that only the processed client's row is modified is false
when two clients share the marked payer name: processing "Kid B" (whose row
still reads "John Doe!") rewrites the payer cell of "Kid A"'s row — the
first row whose payer cell matches — while "Kid B"'s own row keeps the
marker. -/
theorem clear_modifies_first_payer_match :
    clearPayerStep [kidA, kidB] kidB =
      some [{ kidA with payerName := "John Doe" }, kidB] ∧
    ({ kidA with payerName := "John Doe" } : Client) ≠ kidA ∧
    kidB.payerName = "John Doe!" := by
  refine ⟨rfl, by decide, rfl⟩

/-- C8 (amended): after a successful send, if the processed client's payer
name ends with `'!'` the clearing step rewrites exactly the first row whose
payer-name cell equals that payer name — only its payer-name field changes,
to the name minus the trailing `'!'`, and every other row and field is
unchanged — and the welcome email variant is selected; a payer name without
the marker selects the standard variant and the sheet stays unchanged.
(With unique payer names the first matching row is the processed client's
own row.) -/
theorem clear_first_match_frame (clients : List Client) (cd : Client)
    (h1 : cd.payerName.isEmpty = false) :
    (cd.payerName.back = '!' →
      clearPayerStep clients cd = some (clearLoop cd.payerName clients) ∧
      fill_content cd.payerName = some EmailVariant.welcome ∧
      ∀ pre c post, clients = pre ++ c :: post →
        (∀ c' ∈ pre, c'.payerName ≠ cd.payerName) →
        c.payerName = cd.payerName →
        clearLoop cd.payerName clients =
          pre ++ { c with payerName := cd.payerName.dropRight 1 } :: post) ∧
    (cd.payerName.back ≠ '!' →
      clearPayerStep clients cd = some clients ∧
      fill_content cd.payerName = some EmailVariant.standard) := by
  constructor
  · intro hb
    refine ⟨by simp [clearPayerStep, h1, hb], by simp [fill_content, h1, hb], ?_⟩
    intro pre c post hsplit hpre hc
    rw [hsplit]
    exact clearLoop_eq_of_first_match cd.payerName pre c post hpre hc
  · intro hb
    exact ⟨by simp [clearPayerStep, h1, hb], by simp [fill_content, h1, hb]⟩

/-- Witness for C8 (amended): the scenario payer "John Doe!" is stored back
as "John Doe" with the welcome variant; payer "John Doe" gets the standard
variant with the sheet unchanged. -/
theorem clear_first_match_frame_witness :
    clearPayerStep [kidA] kidA = some [{ kidA with payerName := "John Doe" }] ∧
    fill_content "John Doe!" = some EmailVariant.welcome ∧
    clearPayerStep [janeClient] janeClient = some [janeClient] ∧
    fill_content "John Doe" = some EmailVariant.standard := by
  have hA := (clear_first_match_frame [kidA] kidA rfl).1 (by decide)
  have hframe := hA.2.2 [] kidA [] rfl (by simp) rfl
  have hJ := (clear_first_match_frame [janeClient] janeClient rfl).2 (by decide)
  refine ⟨?_, hA.2.1, hJ.1, hJ.2⟩
  rw [hA.1, hframe]
  rfl

/-- C9: `extract_initials` splits the client's full name on whitespace,
takes the first character of each whitespace-delimited token, uppercases and
concatenates; in particular "Jane Q. Public" yields "JQP". -/
theorem extract_initials_first_chars (name : String) :
    (extract_initials name).data =
      ((name.split Char.isWhitespace).filter (fun w => !w.isEmpty)).map
        (fun w => Char.toUpper w.front) ∧
    extract_initials "Jane Q. Public" = "JQP" := by
  have hgen : ∀ nm : String, (extract_initials nm).data =
      ((nm.split Char.isWhitespace).filter (fun w => !w.isEmpty)).map
        (fun w => Char.toUpper w.front) := by
    intro nm
    have hne : ∀ w ∈ (nm.split Char.isWhitespace).filter
        (fun w => !w.isEmpty), w.data ≠ [] := by
      intro w hw hdata
      have hnonempty : ¬w.isEmpty := by
        simpa using (List.mem_filter.mp hw).2
      exact hnonempty ((String.isEmpty_iff w).mpr (String.ext hdata))
    have hmaps : (((nm.split Char.isWhitespace).filter
          (fun w => !w.isEmpty)).map (fun w => w.take 1)).map String.data =
        ((nm.split Char.isWhitespace).filter (fun w => !w.isEmpty)).map
          (fun w => w.data.take 1) := by
      rw [List.map_map]
      exact List.map_congr_left (fun w _ => by simp [String.take_eq])
    calc (extract_initials nm).data
        = ((((nm.split Char.isWhitespace).filter
            (fun w => !w.isEmpty)).map (fun w => w.take 1)).map
              String.data).flatten.map Char.toUpper := by
          rw [extract_initials, String.map_eq, String.join_eq]
      _ = ((((nm.split Char.isWhitespace).filter
            (fun w => !w.isEmpty)).map
              (fun w => w.data.take 1))).flatten.map Char.toUpper := by
          rw [hmaps]
      _ = ((nm.split Char.isWhitespace).filter (fun w => !w.isEmpty)).map
            (fun w => Char.toUpper w.front) :=
          flatten_take_one_map_toUpper _ hne
  refine ⟨hgen name, ?_⟩
  have hd := hgen "Jane Q. Public"
  rw [String.split_of_valid] at hd
  apply String.ext
  rw [hd]
  decide

/-- C10: for every client record, invoice number and session lists,
`get_latex_template` of `sketch.py` renders exactly the same computed fields
(session count, total hours, session total, total due) and the same session
row data as `get_invoice_template` of `invoice.py`: its additionally
received past sessions are excluded from every total and row listing
(`included_sessions = current_sessions`). -/
theorem sketch_template_matches_invoice_template (client_data : Client)
    (invoice_number : String) (past cur : List Session) :
    get_latex_template client_data invoice_number past cur =
      get_invoice_template client_data invoice_number cur := rfl

end TutoringInvoice
